import Mathlib

/-!
Verification of src/register/register_windows.go (orangedeng/per-host-subnet).

The file shallowly embeds the service-control state machine (handler.Execute),
the crash-capture manager (initPanicFile / removePanicFile), the event sink
adapter (etwHook.Fire) and the service bootstrap (initService, notifySystem,
NotifyShutdown) from register_windows.go, and proves the spec claims about
them.

Filesystem and Win32 state is modelled explicitly: files are an association
list from path to content, the process error-output descriptor
(STD_ERROR_HANDLE) and the remembered old descriptor are naturals, and open
file handles carry their path and descriptor number.  File contents are
modelled as strings (Go byte slices; only the final single-byte space of the
field buffer is ever sliced off, so char-level and byte-level slicing agree).
-/

namespace PerHostSubnet

/-- Constant rancherPanicFile from register_windows.go line 30. -/
def rancherPanicFile : String := "C:/ProgramData/rancher/per-host-subnet_panic.log"

/-- Event identifiers, register_windows.go lines 33-41. -/
def eventInfo : Nat := 1

def eventWarn : Nat := 1

def eventError : Nat := 1

def eventDebug : Nat := 2

def eventPanic : Nat := 3

def eventFatal : Nat := 4

def eventExtraOffset : Nat := 10

/-- windows.EVENTLOG_ERROR_TYPE. -/
def eventlogErrorType : Nat := 1

/-- windows.EVENTLOG_WARNING_TYPE. -/
def eventlogWarningType : Nat := 2

/-- windows.EVENTLOG_INFORMATION_TYPE. -/
def eventlogInformationType : Nat := 4

/-- svc.AcceptStop = windows.SERVICE_ACCEPT_STOP. -/
def acceptStop : Nat := 1

/-- svc.AcceptShutdown = windows.SERVICE_ACCEPT_SHUTDOWN. -/
def acceptShutdown : Nat := 4

/-- windows.SERVICE_ACCEPT_PARAMCHANGE. -/
def acceptParamChange : Nat := 8

/-- An open os.File handle: its path and its numeric descriptor. -/
structure FileHandle where
  name : String
  fd : Nat
  deriving DecidableEq

/-- The state touched by the crash-capture manager: the files on disk
(path to content), the current STD_ERROR_HANDLE, the global oldStderr,
a fresh-descriptor counter, and the global panicFile handle (none models the
nil pointer before initPanicFile ran). -/
structure SysState where
  files : List (String × String)
  stdErrHandle : Nat
  oldStderr : Nat
  nextFd : Nat
  panicFile : Option FileHandle
  deriving DecidableEq

/-- Content of a path, none when the path does not exist. -/
def lookupFile : List (String × String) → String → Option String
  | [], _ => none
  | (q, c) :: t, p => if q = p then some c else lookupFile t p

/-- Delete a path (os.Remove). -/
def removeFile (fs : List (String × String)) (p : String) : List (String × String) :=
  fs.filter (fun qc => qc.1 ≠ p)

/-- Create or overwrite a path with given content. -/
def setFile (fs : List (String × String)) (p c : String) : List (String × String) :=
  (p, c) :: removeFile fs p

/-- os.Rename: on Windows the destination is replaced if present; the source
must exist, otherwise nothing happens (the call site discards the error). -/
def renameFile (fs : List (String × String)) (src dst : String) : List (String × String) :=
  match lookupFile fs src with
  | none => fs
  | some c => setFile (removeFile fs src) dst c

/-- os.Create: O_RDWR, O_CREATE and O_TRUNC — the path is created or
truncated to empty, and a fresh handle on it is returned. -/
def osCreate (s : SysState) (p : String) : SysState × FileHandle :=
  ({ s with files := setFile s.files p "", nextFd := s.nextFd + 1 }, ⟨p, s.nextFd⟩)

/-- os.OpenFile with O_CREATE, O_WRONLY and O_APPEND: existing content is
kept; the path is created empty when absent. -/
def openFileAppend (s : SysState) (p : String) : SysState × FileHandle :=
  match lookupFile s.files p with
  | some _ => ({ s with nextFd := s.nextFd + 1 }, ⟨p, s.nextFd⟩)
  | none => ({ s with files := setFile s.files p "", nextFd := s.nextFd + 1 }, ⟨p, s.nextFd⟩)

/-- File.Stat().Size() through an open handle; fails when the underlying
path is gone. -/
def statSize (s : SysState) (h : FileHandle) : Except Unit Nat :=
  match lookupFile s.files h.name with
  | some c => .ok c.length
  | none => .error ()

/-- panicFile.Stat() as performed by removePanicFile: a nil *os.File answers
ErrInvalid, an open handle stats the underlying path. -/
def statOfPanicFile (s : SysState) : Except Unit Nat :=
  match s.panicFile with
  | none => .error ()
  | some h => statSize s h

/-- initPanicFile, register_windows.go lines 367-411.
Steps, in source order: os.Create(rancherPanicFile) — note: the constant
path, truncating whatever was there, handle discarded; then
panicFile = os.OpenFile(path, O_CREATE.or O_WRONLY.or O_APPEND, 0);
st = panicFile.Stat(); if st.Size() > 0 the file is closed, renamed to
path + ".old" (error discarded) and recreated; finally oldStderr =
GetStdHandle(STD_ERROR_HANDLE) is remembered and STD_ERROR_HANDLE is
redirected to panicFile.Fd().  Close is not modelled: no later operation
observes it. -/
def initPanicFile (path : String) (s0 : SysState) : Except Unit SysState :=
  let s1 := (osCreate s0 rancherPanicFile).1
  let p1 := openFileAppend s1 path
  let s2 := { p1.1 with panicFile := some p1.2 }
  match statSize s2 p1.2 with
  | .error e => .error e
  | .ok size =>
    let hs :=
      if size > 0 then
        let s3 := { s2 with files := renameFile s2.files path (path ++ ".old") }
        let p2 := osCreate s3 path
        ({ p2.1 with panicFile := some p2.2 }, p2.2)
      else (s2, p1.2)
    .ok { hs.1 with oldStderr := hs.1.stdErrHandle, stdErrHandle := hs.2.fd }

/-- removePanicFile, register_windows.go lines 413-422.  Only when
panicFile.Stat() succeeds with size zero does it restore STD_ERROR_HANDLE to
oldStderr, close the handle and delete the file; in every other case it does
nothing.  It returns no error. -/
def removePanicFile (s : SysState) : SysState :=
  match s.panicFile with
  | none => s
  | some h =>
    match statSize s h with
    | .error _ => s
    | .ok size =>
      if size = 0 then
        { s with stdErrHandle := s.oldStderr, files := removeFile s.files h.name }
      else s

/-- logrus.PanicLevel. -/
def panicLevel : Nat := 0

/-- logrus.FatalLevel. -/
def fatalLevel : Nat := 1

/-- logrus.ErrorLevel. -/
def errorLevel : Nat := 2

/-- logrus.WarnLevel. -/
def warnLevel : Nat := 3

/-- logrus.InfoLevel. -/
def infoLevel : Nat := 4

/-- logrus.DebugLevel. -/
def debugLevel : Nat := 5

/-- The switch on e.Level in etwHook.Fire, register_windows.go lines 78-99:
severity to (event type, event identifier); none models the default branch
returning errors.New("unknown level"). -/
def levelMapping (lvl : Nat) : Option (Nat × Nat) :=
  if lvl = panicLevel then some (eventlogErrorType, eventPanic)
  else if lvl = fatalLevel then some (eventlogErrorType, eventFatal)
  else if lvl = errorLevel then some (eventlogErrorType, eventError)
  else if lvl = warnLevel then some (eventlogWarningType, eventWarn)
  else if lvl = infoLevel then some (eventlogInformationType, eventInfo)
  else if lvl = debugLevel then some (eventlogInformationType, eventDebug)
  else none

/-- One iteration of the field loop, register_windows.go lines 105-110:
the buffer receives the key, an equals sign, the printed value and a
trailing space. -/
def writeField (acc : List Char) (kv : String × String) : List Char :=
  acc ++ (kv.1 ++ "=" ++ kv.2 ++ " ").data

/-- The field buffer rendered and sliced, register_windows.go line 112:
fs.String() with its final byte (the trailing space) removed.  Only called
on a non-empty field list by Fire. -/
def renderFields (data : List (String × String)) : String :=
  String.mk (data.foldl writeField []).dropLast

/-- The string contains a NUL character, on which syscall.UTF16PtrFromString
fails. -/
def hasNulByte (str : String) : Bool :=
  str.data.contains (Char.ofNat 0)

/-- Outcome of etwHook.Fire: the default-branch error, a console line on
stderr when the eventlog handle is nil, a UTF-16 conversion error, or a
ReportEvent emission with its type, identifier and string array. -/
inductive FireResult where
  | unknownLevel
  | console (line : String)
  | utf16Failure
  | event (etype eid : Nat) (strings : List String)
  deriving DecidableEq

/-- etwHook.Fire, register_windows.go lines 72-142.  hLogSet models
h.log != nil; e.Data is modelled as an association list in one fixed
enumeration order (Go map iteration order is unspecified). -/
def etwFire (hLogSet : Bool) (lvl : Nat) (msg : String)
    (data : List (String × String)) : FireResult :=
  match levelMapping lvl with
  | none => .unknownLevel
  | some te =>
    let exts := if 0 < data.length then renderFields data else ""
    let eid := if 0 < data.length then te.2 + eventExtraOffset else te.2
    if hLogSet = false then .console (msg ++ " [" ++ exts ++ "]\n")
    else if hasNulByte msg then .utf16Failure
    else if exts = "" then .event te.1 eid [msg]
    else if hasNulByte exts then .utf16Failure
    else .event te.1 eid [msg, exts]

/-- svc.State values used by the handler. -/
inductive SvcState where
  | startPending
  | running
  | stopPending
  deriving DecidableEq

/-- svc.Status: a state with its mask of accepted controls. -/
structure Status where
  state : SvcState
  accepts : Nat
  deriving DecidableEq

/-- The Status{State: svc.StartPending, Accepts: 0} report of line 329. -/
def startPendingStatus : Status := ⟨.startPending, 0⟩

/-- The Running report of line 340, accepting Stop, Shutdown and the
PARAMCHANGE control. -/
def runningStatus : Status := ⟨.running, acceptStop ||| acceptShutdown ||| acceptParamChange⟩

/-- The Status{State: svc.StopPending, Accepts: 0} report of line 353. -/
def stopPendingStatus : Status := ⟨.stopPending, 0⟩

/-- A control request Cmd as dispatched by the switch of lines 348-357;
other covers every further svc.Cmd value, which the switch ignores. -/
inductive Cmd where
  | paramChange
  | interrogate (cur : Status)
  | stop
  | shutdown
  | other
  deriving DecidableEq

/-- One event observed by the select of lines 344-358: a value received
from h.tosvc, or a control request received from r. -/
inductive SvcEvent where
  | fromApp (failed : Bool)
  | ctrl (c : Cmd)
  deriving DecidableEq

/-- The Loop of register_windows.go lines 342-359 over a finite schedule of
received events.  Returns the echoed Interrogate reports, the values sent on
serviceSignal, and the final value of failed; none when the schedule ends
with the select still blocked. -/
def runLoop : List SvcEvent → Option (List Status × List Bool × Bool)
  | [] => none
  | .fromApp b :: _ => some ([], [], b)
  | .ctrl .paramChange :: rest => runLoop rest
  | .ctrl (.interrogate cur) :: rest =>
    match runLoop rest with
    | none => none
    | some (rs, sigs, f) => some (cur :: rs, sigs, f)
  | .ctrl .stop :: _ => some ([stopPendingStatus], [true], true)
  | .ctrl .shutdown :: _ => some ([stopPendingStatus], [true], true)
  | .ctrl .other :: rest => runLoop rest

/-- Everything handler.Execute produces: the status reports sent on s in
order, the values sent on serviceSignal, whether removePanicFile ran, the
two return values (svcSpecificError, exit code), and the crash-capture
state after the call. -/
structure ExecResult where
  reports : List Status
  stopSignals : List Bool
  panicCleanupRan : Bool
  svcSpecificError : Bool
  exitCode : Nat
  finalSys : SysState
  deriving DecidableEq

/-- handler.Execute, register_windows.go lines 328-365.  initFailed is the
first value received from h.tosvc (sent by started or stopped); evts is the
schedule of events the select loop then observes.  The initial StartPending
report and the h.fromsvc handshake of lines 329-331 precede everything
else; on the failure path the function returns (true, 1) at line 337 with
no Running report and no removePanicFile call. -/
def Execute (s : SysState) (initFailed : Bool) (evts : List SvcEvent) : Option ExecResult :=
  if initFailed then
    some ⟨[startPendingStatus], [], false, true, 1, s⟩
  else
    match runLoop evts with
    | none => none
    | some (rs, sigs, failed) =>
      some ⟨startPendingStatus :: runningStatus :: rs, sigs, true, failed,
            if failed then 1 else 0, removePanicFile s⟩

/-- Which dispatcher the goroutine of lines 294-302 runs the handler under. -/
inductive Dispatcher where
  | debugRun
  | svcRun
  deriving DecidableEq

/-- What initService leaves behind on its success path: whether the global
service was assigned, whether eventlog.Open was called (so the etwHook holds
a non-nil log handle), and which dispatcher was started. -/
structure ServiceSetup where
  serviceSet : Bool
  eventlogOpened : Bool
  dispatcher : Dispatcher
  deriving DecidableEq

/-- Result of initService: os.Exit after a register or unregister one-shot,
or the normal path with its setup. -/
inductive InitOutcome where
  | exited (code : Nat)
  | ready (setup : ServiceSetup)
  deriving DecidableEq

/-- initService, register_windows.go lines 241-310, success path.  After the
register and unregister one-shots (which end in os.Exit(0)), the
interactive flag only decides whether eventlog.Open is called (line 273)
and whether the goroutine runs debug.Run or svc.Run (lines 295-299); the
global service is assigned unconditionally at line 293. -/
def initService (reg unreg interactive : Bool) : InitOutcome :=
  if reg then .exited 0
  else if unreg then .exited 0
  else
    .ready { serviceSet := true
             eventlogOpened := !interactive
             dispatcher := if interactive then .debugRun else .svcRun }

/-- notifySystem, register_windows.go lines 424-431: service.started() runs
if and only if the global service is non-nil. -/
def notifySystemActs (serviceSet : Bool) : Bool := serviceSet

/-- What a call to NotifyShutdown does: whether logrus.Fatal logged, whether
the process exited inside the call (logrus.Fatal ends in os.Exit(1)), and
the value sent to the dispatcher loop on h.tosvc by service.stopped, if
any. -/
structure ShutdownEffect where
  loggedFatal : Bool
  processExit : Option Nat
  sentToSvc : Option Bool
  deriving DecidableEq

/-- NotifyShutdown, register_windows.go lines 433-440, with stopped of lines
322-326.  With service nil nothing happens.  With a non-nil error,
logrus.Fatal logs and calls os.Exit(1), so service.stopped is never
reached.  With a nil error, stopped sends false (err != nil) on h.tosvc and
waits for Execute to answer on h.fromsvc. -/
def NotifyShutdown (serviceSet : Bool) (errPresent : Bool) : ShutdownEffect :=
  if serviceSet then
    if errPresent then ⟨true, some 1, none⟩
    else ⟨false, none, some false⟩
  else ⟨false, none, none⟩

/-- A process that has not yet begun crash capture: no files, descriptor 7
on STD_ERROR_HANDLE, no panicFile handle. -/
def s0Run : SysState := ⟨[], 7, 0, 3, none⟩

/-- A process whose previous run left a non-empty crash record on disk. -/
def s0Prior : SysState := ⟨[(rancherPanicFile, "panic: prior crash")], 7, 0, 3, none⟩

/-- The state initPanicFile produces from s0Run (and also from s0Prior: the
prior record is truncated away): an empty crash file, stderr redirected to
its descriptor 4, descriptor 7 remembered in oldStderr. -/
def sReady : SysState := ⟨[(rancherPanicFile, "")], 4, 7, 5, some ⟨rancherPanicFile, 4⟩⟩

/-- The state removePanicFile produces from sReady: crash file deleted,
descriptor 7 restored. -/
def sStopped : SysState := ⟨[], 7, 7, 5, some ⟨rancherPanicFile, 4⟩⟩

/-- A state in which the crash file holds fault output. -/
def sCrashed : SysState := ⟨[(rancherPanicFile, "panic: boom")], 4, 7, 5, some ⟨rancherPanicFile, 4⟩⟩

lemma lookupFile_setFile_self (fs : List (String × String)) (p c : String) :
    lookupFile (setFile fs p c) p = some c := by
  simp [setFile, lookupFile]

lemma lookupFile_removeFile_self (fs : List (String × String)) (p : String) :
    lookupFile (removeFile fs p) p = none := by
  induction fs with
  | nil => rfl
  | cons qc t ih =>
    rcases qc with ⟨q, c⟩
    by_cases h : q = p
    · simpa [removeFile, List.filter_cons, h] using ih
    · simpa [removeFile, List.filter_cons, h, lookupFile] using ih

/-- What initPanicFile does from any state when called, as it always is,
on the constant path: the crash file is created or truncated to empty, a
handle on it with a fresh descriptor becomes panicFile, the current
STD_ERROR_HANDLE is remembered in oldStderr, and STD_ERROR_HANDLE is
redirected to the new descriptor.  The rotation branch is never taken
because the initial os.Create already emptied the file. -/
lemma initPanicFile_eq (s : SysState) :
    initPanicFile rancherPanicFile s =
      .ok { files := setFile s.files rancherPanicFile ""
            stdErrHandle := s.nextFd + 1
            oldStderr := s.stdErrHandle
            nextFd := s.nextFd + 2
            panicFile := some ⟨rancherPanicFile, s.nextFd + 1⟩ } := by
  simp [initPanicFile, osCreate, openFileAppend, statSize, lookupFile_setFile_self]

/-- Claim C1, settled as a code bug.  The spec (and the comment above the
rotation branch in the source) say a pre-existing non-empty crash file is
renamed to path + ".old" before a fresh file is created.  In the code,
os.Create(rancherPanicFile) on line 369 truncates the file before the size
check of line 385, so the size is always 0, the rename never happens, and
the prior record is destroyed: from s0Prior, whose crash file holds a prior
record, initPanicFile reaches sReady, where no ".old" file exists and the
crash file is empty. -/
theorem C1_truncation_destroys_prior_record :
    lookupFile s0Prior.files rancherPanicFile = some "panic: prior crash" ∧
    initPanicFile rancherPanicFile s0Prior = .ok sReady ∧
    lookupFile sReady.files (rancherPanicFile ++ ".old") = none ∧
    lookupFile sReady.files rancherPanicFile = some "" :=
  ⟨rfl, rfl, rfl, rfl⟩

/-- Claim C2, counterexample.  In the clean-stop scenario (successful start,
then an OS Stop request) Execute returns (true, 1), not the claimed
(false, 0): line 354 sets failed = true before breaking out of the loop. -/
theorem C2_os_stop_returns_true_one :
    (Execute sReady false [.ctrl .stop]).map (fun o => (o.svcSpecificError, o.exitCode)) =
      some (true, 1) ∧
    some ((true : Bool), (1 : Nat)) ≠ some ((false : Bool), (0 : Nat)) :=
  ⟨rfl, by decide⟩

/-- Claim C2 as amended.  The clean-stop scenario behaves as described —
StartPending is reported, the application signals success, Running is
reported accepting Stop, Shutdown and ParamChange, the OS Stop yields a
StopPending report, the stop listener is signalled, the empty crash file is
removed and the original descriptor restored — but Execute returns
(true, 1), not (false, 0). -/
theorem C2_clean_stop_scenario :
    initPanicFile rancherPanicFile s0Run = .ok sReady ∧
    Execute sReady false [.ctrl .stop] =
      some ⟨[startPendingStatus, runningStatus, stopPendingStatus], [true], true, true, 1,
            sStopped⟩ ∧
    runningStatus.accepts = acceptStop ||| acceptShutdown ||| acceptParamChange ∧
    lookupFile sStopped.files rancherPanicFile = none ∧
    sStopped.stdErrHandle = s0Run.stdErrHandle :=
  ⟨rfl, rfl, rfl, rfl, rfl⟩

/-- Claim C7.  When the application reports initialization failure (true on
h.tosvc) while the machine is still in StartPending, Execute returns
(true, 1) at line 337: the only report ever sent is StartPending — which is
not a Running status — no stop signal is sent and removePanicFile does not
run. -/
theorem C7_init_failure_direct_return (s : SysState) (evts : List SvcEvent) :
    Execute s true evts = some ⟨[startPendingStatus], [], false, true, 1, s⟩ ∧
    startPendingStatus.state ≠ SvcState.running :=
  ⟨rfl, by decide⟩

/-- Claim C10.  removePanicFile is total (it returns no error by type) and
when panicFile.Stat() fails — a nil handle or a missing underlying path —
it changes nothing: no descriptor restoration, no close, no deletion. -/
theorem C10_stat_failure_is_noop (s : SysState)
    (h : statOfPanicFile s = .error ()) : removePanicFile s = s := by
  unfold statOfPanicFile at h
  unfold removePanicFile
  rcases hp : s.panicFile with _ | fh
  · simp [hp]
  · rw [hp] at h
    simp only at h
    simp [hp, h]

/-- Witness for C10 at the state preceding any crash capture: there the
panicFile handle is still nil, Stat fails, and removePanicFile changes
nothing. -/
theorem C10_witness :
    statOfPanicFile s0Run = .error () ∧ removePanicFile s0Run = s0Run :=
  ⟨rfl, C10_stat_failure_is_noop s0Run rfl⟩

/-- An event on which the select loop of lines 342-359 stops looping:
a value from h.tosvc, or a Stop or Shutdown control. -/
def isBreaking : SvcEvent → Bool
  | .fromApp _ => true
  | .ctrl .stop => true
  | .ctrl .shutdown => true
  | _ => false

/-- The status reports the loop emits for a schedule of non-breaking
events: one echo per Interrogate. -/
def echoedStatuses (evts : List SvcEvent) : List Status :=
  evts.filterMap fun e =>
    match e with
    | .ctrl (.interrogate cur) => some cur
    | _ => none

lemma runLoop_reaches_stop (pre : List SvcEvent)
    (hpre : ∀ e ∈ pre, isBreaking e = false) (c : Cmd)
    (hc : c = Cmd.stop ∨ c = Cmd.shutdown) (rest : List SvcEvent) :
    runLoop (pre ++ .ctrl c :: rest) =
      some (echoedStatuses pre ++ [stopPendingStatus], [true], true) := by
  induction pre with
  | nil =>
    rcases hc with h | h <;> subst h <;> rfl
  | cons e t ih =>
    have he : isBreaking e = false := hpre e (List.mem_cons_self e t)
    have ht : ∀ x ∈ t, isBreaking x = false := fun x hx => hpre x (List.mem_cons_of_mem e hx)
    rcases e with b | cmd
    · simp [isBreaking] at he
    · cases cmd with
      | paramChange => simpa [runLoop, echoedStatuses] using ih ht
      | interrogate cur =>
        simp only [List.cons_append, runLoop, List.append_eq, ih ht, echoedStatuses,
          List.filterMap_cons]
      | stop => simp [isBreaking] at he
      | shutdown => simp [isBreaking] at he
      | other => simpa [runLoop, echoedStatuses] using ih ht

/-- Claim C3.  Whatever non-breaking traffic (ParamChange, Interrogate,
ignored commands) precedes it, a Stop or Shutdown control received while
Running makes Execute report StopPending accepting nothing as its final
report, send true on serviceSignal (the stop listener), mark the outcome
failed, run removePanicFile, and return (true, 1). -/
theorem C3_stop_shutdown_path (s : SysState) (pre : List SvcEvent)
    (hpre : ∀ e ∈ pre, isBreaking e = false) (c : Cmd)
    (hc : c = Cmd.stop ∨ c = Cmd.shutdown) (rest : List SvcEvent) :
    Execute s false (pre ++ .ctrl c :: rest) =
      some ⟨[startPendingStatus, runningStatus] ++ echoedStatuses pre ++ [stopPendingStatus],
            [true], true, true, 1, removePanicFile s⟩ := by
  unfold Execute
  rw [runLoop_reaches_stop pre hpre c hc rest]
  rfl

/-- Witness for C3: after one ParamChange and one Interrogate, a Stop
control drives the stop path from the post-initialization state sReady. -/
theorem C3_witness :
    (∀ e ∈ [SvcEvent.ctrl Cmd.paramChange, SvcEvent.ctrl (Cmd.interrogate runningStatus)],
        isBreaking e = false) ∧
    (Cmd.stop = Cmd.stop ∨ Cmd.stop = Cmd.shutdown) ∧
    Execute sReady false
        ([SvcEvent.ctrl Cmd.paramChange, SvcEvent.ctrl (Cmd.interrogate runningStatus)] ++
          [SvcEvent.ctrl Cmd.stop]) =
      some ⟨[startPendingStatus, runningStatus, runningStatus, stopPendingStatus],
            [true], true, true, 1, sStopped⟩ :=
  ⟨by decide, Or.inl rfl,
    C3_stop_shutdown_path sReady
      [SvcEvent.ctrl Cmd.paramChange, SvcEvent.ctrl (Cmd.interrogate runningStatus)]
      (by decide) Cmd.stop (Or.inl rfl) []⟩

/-- Claim C6.  First part: when panicFile.Stat() succeeds with size zero,
removePanicFile restores STD_ERROR_HANDLE to the remembered oldStderr and
deletes the crash file.  Second part: when the size is non-zero it changes
nothing — no restoration, file and contents untouched.  Third part: begin
then end with no intervening fault leaves no crash file on disk and
restores the descriptor that was current before begin. -/
theorem C6_end_behavior :
    (∀ (s : SysState) (h : FileHandle), s.panicFile = some h → statSize s h = .ok 0 →
      removePanicFile s =
        { s with stdErrHandle := s.oldStderr, files := removeFile s.files h.name }) ∧
    (∀ (s : SysState) (h : FileHandle) (n : Nat), s.panicFile = some h →
      statSize s h = .ok n → n ≠ 0 → removePanicFile s = s) ∧
    (∀ s s1 : SysState, initPanicFile rancherPanicFile s = .ok s1 →
      lookupFile (removePanicFile s1).files rancherPanicFile = none ∧
      (removePanicFile s1).stdErrHandle = s.stdErrHandle) := by
  refine ⟨?_, ?_, ?_⟩
  · intro s h hp hstat
    unfold removePanicFile
    simp [hp, hstat]
  · intro s h n hp hstat hn
    unfold removePanicFile
    simp [hp, hstat, hn]
  · intro s s1 hinit
    rw [initPanicFile_eq s] at hinit
    cases hinit
    constructor
    · simp [removePanicFile, statSize, lookupFile_setFile_self, lookupFile_removeFile_self]
    · simp [removePanicFile, statSize, lookupFile_setFile_self]

/-- Witness for C6: the empty-file case at sReady, the non-empty case at
sCrashed, and the begin-end round trip from s0Run. -/
theorem C6_witness :
    (sReady.panicFile = some ⟨rancherPanicFile, 4⟩ ∧
      statSize sReady ⟨rancherPanicFile, 4⟩ = .ok 0 ∧
      removePanicFile sReady = sStopped) ∧
    (sCrashed.panicFile = some ⟨rancherPanicFile, 4⟩ ∧
      statSize sCrashed ⟨rancherPanicFile, 4⟩ = .ok 11 ∧
      removePanicFile sCrashed = sCrashed) ∧
    (initPanicFile rancherPanicFile s0Run = .ok sReady ∧
      lookupFile (removePanicFile sReady).files rancherPanicFile = none ∧
      (removePanicFile sReady).stdErrHandle = s0Run.stdErrHandle) :=
  ⟨⟨rfl, rfl, C6_end_behavior.1 sReady ⟨rancherPanicFile, 4⟩ rfl rfl⟩,
    ⟨rfl, rfl, C6_end_behavior.2.1 sCrashed ⟨rancherPanicFile, 4⟩ 11 rfl rfl (by decide)⟩,
    ⟨rfl, (C6_end_behavior.2.2 s0Run sReady rfl).1, (C6_end_behavior.2.2 s0Run sReady rfl).2⟩⟩

/-- Claim C4, counterexample.  With a non-nil stop-time error,
NotifyShutdown reaches logrus.Fatal, which logs and then exits the process
with code 1 — service.stopped on line 438 is never reached, no value is
ever sent to the dispatcher loop, and the unwind that a successful stop
performs (the value sent to h.tosvc being false) does not happen.  The
claimed behavior — the clean-unwind path still runs — is therefore false. -/
theorem C4_fatal_preempts_unwind :
    NotifyShutdown true true = ⟨true, some 1, none⟩ ∧
    (NotifyShutdown true true).sentToSvc ≠ (NotifyShutdown true false).sentToSvc ∧
    (NotifyShutdown true false).sentToSvc = some false :=
  ⟨rfl, by decide, rfl⟩

/-- Claim C4 as amended.  A non-nil error reported at stop time is logged
as fatal and terminates the process with exit code 1 inside the logging
call, before the dispatcher is notified; only a nil error drives the clean
unwind, sending false on h.tosvc so that Execute tears down crash capture.
With service nil the call does nothing. -/
theorem C4_shutdown_error_semantics :
    NotifyShutdown true true = ⟨true, some 1, none⟩ ∧
    NotifyShutdown true false = ⟨false, none, some false⟩ ∧
    NotifyShutdown false true = ⟨false, none, none⟩ ∧
    NotifyShutdown false false = ⟨false, none, none⟩ :=
  ⟨rfl, rfl, rfl, rfl⟩

/-- Claim C5, counterexample.  In interactive mode (no register or
unregister flag) initService still assigns the global service at line 293
and starts the handler under debug.Run, so notifySystem is not a no-op
(service.started runs) and NotifyShutdown with a nil error is not a no-op
either (it sends the stop outcome to the dispatcher loop).  The claim that
the process-wide service flag is absent and these operations become no-ops
in interactive mode is therefore false. -/
theorem C5_interactive_service_still_set :
    initService false false true = .ready ⟨true, false, .debugRun⟩ ∧
    notifySystemActs true = true ∧
    NotifyShutdown true false ≠ ⟨false, none, none⟩ :=
  ⟨rfl, rfl, by decide⟩

/-- Claim C5 as amended.  In interactive mode initService opens no eventlog
handle, so the registered hook carries a nil log and every recognized
record falls back to the console sink as a stderr line, and the handler
runs under the debug dispatcher — but the service instance is still set
and the collaborator operations are not no-ops. -/
theorem C5_interactive_console_fallback :
    initService false false true = .ready ⟨true, false, Dispatcher.debugRun⟩ ∧
    initService false false false = .ready ⟨true, true, Dispatcher.svcRun⟩ ∧
    (∀ (lvl : Nat) (te : Nat × Nat) (msg : String) (data : List (String × String)),
      levelMapping lvl = some te →
      etwFire false lvl msg data =
        .console (msg ++ " [" ++ (if 0 < data.length then renderFields data else "") ++ "]\n")) := by
  refine ⟨rfl, rfl, ?_⟩
  intro lvl te msg data hmap
  unfold etwFire
  rw [hmap]
  simp

/-- Witness for C5's amended claim: an info record with no fields, fired
through the nil-log hook, prints the console line. -/
theorem C5_witness :
    levelMapping infoLevel = some (eventlogInformationType, eventInfo) ∧
    etwFire false infoLevel "hello" [] = .console "hello []\n" :=
  ⟨rfl, C5_interactive_console_fallback.2.2 infoLevel (eventlogInformationType, eventInfo)
    "hello" [] rfl⟩

lemma levelMapping_unknown (lvl : Nat) (h : debugLevel < lvl) : levelMapping lvl = none := by
  unfold debugLevel at h
  have h0 : lvl ≠ panicLevel := by unfold panicLevel; omega
  have h1 : lvl ≠ fatalLevel := by unfold fatalLevel; omega
  have h2 : lvl ≠ errorLevel := by unfold errorLevel; omega
  have h3 : lvl ≠ warnLevel := by unfold warnLevel; omega
  have h4 : lvl ≠ infoLevel := by unfold infoLevel; omega
  have h5 : lvl ≠ debugLevel := by unfold debugLevel; omega
  simp [levelMapping, h0, h1, h2, h3, h4, h5]

/-- Claim C8.  The severity mapping of Fire is a fixed table: panic, fatal
and error go to the Error event type with the pairwise distinct identifiers
3, 4 and 1; warn goes to the Warning type; info and debug go to the
Information type with the distinct identifiers 1 and 2.  Every level beyond
the six known ones makes Fire return the unknown-level error with no
emission of any kind. -/
theorem C8_severity_mapping :
    (levelMapping panicLevel = some (eventlogErrorType, eventPanic) ∧
      levelMapping fatalLevel = some (eventlogErrorType, eventFatal) ∧
      levelMapping errorLevel = some (eventlogErrorType, eventError) ∧
      levelMapping warnLevel = some (eventlogWarningType, eventWarn) ∧
      levelMapping infoLevel = some (eventlogInformationType, eventInfo) ∧
      levelMapping debugLevel = some (eventlogInformationType, eventDebug)) ∧
    (eventPanic ≠ eventFatal ∧ eventPanic ≠ eventError ∧ eventFatal ≠ eventError ∧
      eventInfo ≠ eventDebug) ∧
    (∀ lvl, debugLevel < lvl →
      ∀ (hLogSet : Bool) (msg : String) (data : List (String × String)),
        etwFire hLogSet lvl msg data = .unknownLevel) := by
  refine ⟨⟨rfl, rfl, rfl, rfl, rfl, rfl⟩, ⟨by decide, by decide, by decide, by decide⟩, ?_⟩
  intro lvl h hLogSet msg data
  unfold etwFire
  rw [levelMapping_unknown lvl h]

/-- Witness for C8: level 6 (beyond debug) is rejected with no emission. -/
theorem C8_witness :
    debugLevel < 6 ∧ etwFire true 6 "m" [("k", "v")] = FireResult.unknownLevel :=
  ⟨by decide, C8_severity_mapping.2.2 6 (by decide) true "m" [("k", "v")]⟩

/-- Follows the words of the spec for the refinement part of C9: the fields
joined as key=value pairs separated by single spaces with no trailing
separator. -/
def specFieldsJoin : List (List Char) → List Char
  | [] => []
  | [x] => x
  | x :: y :: t => x ++ ' ' :: specFieldsJoin (y :: t)

lemma foldl_writeField (data : List (String × String)) (acc : List Char) :
    data.foldl writeField acc =
      acc ++ (data.map fun kv => (kv.1 ++ "=" ++ kv.2 ++ " ").data).flatten := by
  induction data generalizing acc with
  | nil => simp
  | cons kv t ih => simp [writeField, ih, List.append_assoc]

lemma join_spaced_dropLast :
    ∀ l : List (List Char), l ≠ [] →
      ((l.map fun x => x ++ [' ']).flatten).dropLast = specFieldsJoin l := by
  intro l
  induction l with
  | nil => intro h; exact absurd rfl h
  | cons x t ih =>
    intro _
    cases t with
    | nil => simp [specFieldsJoin, List.dropLast_concat]
    | cons y u =>
      have hne : ((List.map (fun x => x ++ [' ']) (y :: u)).flatten) ≠ [] := by
        simp [List.flatten_cons, List.append_eq_nil]
      rw [List.map_cons, List.flatten_cons, List.dropLast_append_of_ne_nil _ hne, ih (by simp)]
      simp [specFieldsJoin, List.append_assoc]

lemma renderFields_data (data : List (String × String)) (hd : data ≠ []) :
    (renderFields data).data =
      specFieldsJoin (data.map fun kv => (kv.1 ++ "=" ++ kv.2).data) := by
  unfold renderFields
  rw [foldl_writeField data []]
  simp only [List.nil_append]
  have hmap : (data.map fun kv => (kv.1 ++ "=" ++ kv.2 ++ " ").data) =
      ((data.map fun kv => (kv.1 ++ "=" ++ kv.2).data).map fun x => x ++ [' ']) := by
    simp only [List.map_map]
    refine List.map_congr_left ?_
    intro kv _
    show ((kv.1 ++ "=" ++ kv.2) ++ " ").data = (kv.1 ++ "=" ++ kv.2).data ++ [' ']
    rw [String.data_append (kv.1 ++ "=" ++ kv.2) " "]
  show ((data.map fun kv => (kv.1 ++ "=" ++ kv.2 ++ " ").data).flatten).dropLast = _
  rw [hmap, join_spaced_dropLast _ (by simpa using hd)]

lemma specFieldsJoin_map_ne_nil (data : List (String × String)) (hd : data ≠ []) :
    specFieldsJoin (data.map fun kv => (kv.1 ++ "=" ++ kv.2).data) ≠ [] := by
  cases data with
  | nil => exact absurd rfl hd
  | cons kv t =>
    cases t with
    | nil =>
      show ((kv.1 ++ "=" ++ kv.2).data : List Char) ≠ []
      rw [String.data_append (kv.1 ++ "=") kv.2, String.data_append kv.1 "="]
      simp [List.append_eq_nil]
    | cons y u =>
      simp [specFieldsJoin, List.append_eq_nil]

lemma renderFields_ne_empty (data : List (String × String)) (hd : data ≠ []) :
    renderFields data ≠ "" := by
  intro h
  have h2 := congrArg String.data h
  rw [renderFields_data data hd] at h2
  exact specFieldsJoin_map_ne_nil data hd (by simpa using h2)

/-- Claim C9.  For any recognized severity: a record with one or more
structured fields is emitted as a two-string event whose identifier is the
base identifier plus eventExtraOffset and whose auxiliary string is the
fields joined as key=value pairs separated by single spaces with no
trailing separator (specFieldsJoin states that wording; renderFields is the
code's buffer computation); a record with no fields is emitted as a
one-string event with the base identifier.  The NUL-freedom hypotheses rule
out the UTF-16 conversion failures of lines 126-139. -/
theorem C9_field_rendering :
    ∀ (lvl : Nat) (te : Nat × Nat), levelMapping lvl = some te →
    ∀ (msg : String) (data : List (String × String)), hasNulByte msg = false →
      (data ≠ [] → hasNulByte (renderFields data) = false →
        etwFire true lvl msg data =
          .event te.1 (te.2 + eventExtraOffset) [msg, renderFields data] ∧
        (renderFields data).data =
          specFieldsJoin (data.map fun kv => (kv.1 ++ "=" ++ kv.2).data)) ∧
      etwFire true lvl msg [] = .event te.1 te.2 [msg] := by
  intro lvl te hmap msg data hmsg
  constructor
  · intro hd hnul
    refine ⟨?_, renderFields_data data hd⟩
    have hlen : 0 < data.length := List.length_pos.mpr hd
    unfold etwFire
    rw [hmap]
    simp [hlen, hmsg, renderFields_ne_empty data hd, hnul]
  · unfold etwFire
    rw [hmap]
    simp [hmsg]

/-- Witness for C9: an info record with two fields is emitted with
identifier 11 and auxiliary string a=1 b=2; without fields, with
identifier 1 and the message alone. -/
theorem C9_witness :
    levelMapping infoLevel = some (eventlogInformationType, eventInfo) ∧
    hasNulByte "started" = false ∧
    ([(("a" : String), ("1" : String)), ("b", "2")] : List (String × String)) ≠ [] ∧
    hasNulByte (renderFields [("a", "1"), ("b", "2")]) = false ∧
    renderFields [("a", "1"), ("b", "2")] = "a=1 b=2" ∧
    etwFire true infoLevel "started" [("a", "1"), ("b", "2")] =
      .event eventlogInformationType (eventInfo + eventExtraOffset) ["started", "a=1 b=2"] ∧
    (renderFields [("a", "1"), ("b", "2")]).data =
      specFieldsJoin [("a=1" : String).data, ("b=2" : String).data] ∧
    etwFire true infoLevel "started" [] =
      .event eventlogInformationType eventInfo ["started"] := by
  have h := C9_field_rendering infoLevel (eventlogInformationType, eventInfo) rfl
    "started" [("a", "1"), ("b", "2")] rfl
  have h1 := h.1 (by decide) rfl
  exact ⟨rfl, rfl, by decide, rfl, rfl, h1.1, h1.2, h.2⟩

end PerHostSubnet
